import Mathlib

/-!
Shallow embedding of the Trello user-provisioning automation
(`script.py`, class `TrelloProvisioning`, and the unnamed variant
`part_000`, class `TrelloUserProvisioning`).

Conventions of the embedding:
* Python exceptions are the inductive `Exc`; fallible code returns `Except Exc`.
* The browser DOM is a function from selector strings to lookup results:
  `find_element` views a page as `String → Lookup`, `find_elements` as
  `String → ElemsResult`.
* Side effects (navigation, sleeps, element queries, clicks, cleanup) are
  recorded in an event trace `List Ev`; `time.sleep` durations are recorded
  as naturals.
* String literals are reproduced from the source with the quote characters
  inside them elided (the selector strings are opaque keys of the page map).
-/

/-- Python exception kinds occurring in the scripts.  `captcha` is
`CaptchaDetectedException`, a subclass of `TrelloProvisioningError`
(`provisioning`); `other` stands for any further `Exception`. -/
inductive Exc where
  | noSuchElement
  | timeout (msg : String)
  | staleElement
  | clickIntercepted
  | provisioning (msg : String)
  | captcha (msg : String)
  | valueError (msg : String)
  | other (msg : String)
deriving DecidableEq, Repr

/-- Python `str(e)` of an exception, used when error messages embed a cause. -/
def Exc.str : Exc → String
  | .noSuchElement => "NoSuchElementException"
  | .timeout m => m
  | .staleElement => "StaleElementReferenceException"
  | .clickIntercepted => "ElementClickInterceptedException"
  | .provisioning m => m
  | .captcha m => m
  | .valueError m => m
  | .other m => m

/-- The transient exception kinds caught by part_000 `retry_action`:
`TimeoutException`, `StaleElementReferenceException`,
`ElementClickInterceptedException`. -/
def Exc.isTransient : Exc → Bool
  | .timeout _ => true
  | .staleElement => true
  | .clickIntercepted => true
  | _ => false

/-- A DOM element (a `WebElement`). -/
structure Element where
  id : Nat
  text : String
deriving DecidableEq, Repr

/-- Result of `driver.find_element` on one selector. -/
inductive Lookup where
  | found (el : Element)
  | absent
  | err (e : Exc)
deriving DecidableEq, Repr

/-- Result of `driver.find_elements` on one selector. -/
inductive ElemsResult where
  | elems (l : List Element)
  | raise (e : Exc)
deriving DecidableEq, Repr

/-- Observable events of a run. -/
inductive Ev where
  | setupLogging
  | loadDotenv
  | getUrl (u : String)
  | sleep (n : Nat)
  | find (s : String)
  | clickContinue
  | waitForOperator
  | enterUsername
  | enterPassword
  | submitLogin
  | loginVerified
  | pressEnter
  | setupDriver
  | loginStep
  | navigateStep
  | addUserStep
  | verifyStep
  | cleanupStep
  | quit
  | logWarn
deriving DecidableEq, Repr

/-- Events that touch the browser or the WebDriver. -/
def Ev.isBrowser : Ev → Bool
  | .getUrl _ => true
  | .find _ => true
  | .quit => true
  | .setupDriver => true
  | _ => false

/-! ## Credentials and construction (`__init__`) -/

/-- `script.py` dataclass `TrelloCredentials`. -/
structure TrelloCredentials where
  username : String
  password : String
deriving DecidableEq, Repr

/-- Python truthiness of an `os.getenv` result: `None` and the empty string
are falsy. -/
def envTruthy : Option String → Bool
  | none => false
  | some s => !(s == "")

/-- `TrelloProvisioning._load_credentials`: reads `TRELLO_USERNAME` and
`TRELLO_PASSWORD`; `if not username or not password` raises
`TrelloProvisioningError`. -/
def loadCredentials (env : String → Option String) : Except Exc TrelloCredentials :=
  let username := env "TRELLO_USERNAME"
  let password := env "TRELLO_PASSWORD"
  if envTruthy username && envTruthy password then
    .ok { username := username.getD "", password := password.getD "" }
  else
    .error (.provisioning "TRELLO_USERNAME and TRELLO_PASSWORD must be set in .env file")

/-- A WebDriver handle; `quitResult` is what `driver.quit()` does. -/
structure Driver where
  quitResult : Except Exc Unit

/-- Instance state of `TrelloProvisioning` after `__init__`. -/
structure ScriptState where
  headless : Bool
  waitTimeout : Nat
  maxRetries : Nat
  retryDelayBase : Nat
  credentials : TrelloCredentials
  driver : Option Driver

/-- `TrelloProvisioning.__init__`: sets fields, configures logging, loads
the dotenv file, then loads credentials.  No browser or WebDriver call is
made here (`_setup_driver` runs only inside `run_provisioning`). -/
def initScript (env : String → Option String) (headless : Bool) (waitTimeout : Nat) :
    Except Exc ScriptState × List Ev :=
  match loadCredentials env with
  | .error e => (.error e, [.setupLogging, .loadDotenv])
  | .ok creds =>
    (.ok { headless := headless, waitTimeout := waitTimeout, maxRetries := 3,
           retryDelayBase := 1, credentials := creds, driver := none },
     [.setupLogging, .loadDotenv])

/-- Instance state of part_000 `TrelloUserProvisioning` after `__init__`. -/
structure PartState where
  driver : Option Driver
  wait : Option Unit
  headless : Bool
  timeout : Nat
  baseUrl : String
  loginUrl : String
  username : String
  password : String
  workspaceName : String
  newUserEmail : String
  newUserRole : String

/-- part_000 `TrelloUserProvisioning.__init__`: reads `TRELL_USERNAME` and
`TRELL_PASSWORD`; `if not self.username or not self.password` raises
`ValueError`.  No browser call is made here (`setup_browser` is separate). -/
def initPart (env : String → Option String) (headless : Bool) (timeout : Nat) :
    Except Exc PartState × List Ev :=
  let u := env "TRELL_USERNAME"
  let p := env "TRELL_PASSWORD"
  if envTruthy u && envTruthy p then
    (.ok { driver := none, wait := none, headless := headless, timeout := timeout,
           baseUrl := "https://trello.com", loginUrl := "https://trello.com/login",
           username := u.getD "", password := p.getD "",
           workspaceName := "Project X", newUserEmail := "newuser@example.com",
           newUserRole := "Member" }, [])
  else
    (.error (.valueError "TRELL_USERNAME or TRELL_PASSWORD missing in .env file."), [])

/-! ## Retry helpers -/

/-- Python `str(None)` or `str(last_exception)` for the terminal message of
`_retry_operation`. -/
def lastExcStr : Option Exc → String
  | none => "None"
  | some e => e.str

/-- Loop body of `TrelloProvisioning._retry_operation`: `for attempt in
range(max_retries): try: return operation() except Exception as e:
last_exception = e; sleep(retry_delay_base * 2 ** attempt)`; after the loop
raises `TrelloProvisioningError` embedding the last exception.  The operation
is modelled as a function from the attempt index to its outcome; the returned
list collects the sleep durations. -/
def retryOpAux {α : Type} (op : Nat → Except Exc α) (base : Nat) (name : String)
    (maxRetries : Nat) : Nat → Nat → Option Exc → Except Exc α × List Nat
  | 0, _, last =>
    (.error (.provisioning ("Operation " ++ name ++ " failed after "
        ++ toString maxRetries ++ " attempts. Last error: " ++ lastExcStr last)), [])
  | remaining + 1, attempt, _ =>
    match op attempt with
    | .ok v => (.ok v, [])
    | .error e =>
      let d := base * 2 ^ attempt
      let p := retryOpAux op base name maxRetries remaining (attempt + 1) (some e)
      (p.1, d :: p.2)

/-- `TrelloProvisioning._retry_operation` with the instance configuration
`max_retries = 3`, `retry_delay_base = 1`. -/
def retryOperation {α : Type} (op : Nat → Except Exc α) (name : String) :
    Except Exc α × List Nat :=
  retryOpAux op 1 name 3 3 0 none

/-- Loop body of part_000 `retry_action`: retries only on the transient
kinds (`TimeoutException`, `StaleElementReferenceException`,
`ElementClickInterceptedException`), sleeping `delay * 2 ** attempt`; any
other exception propagates; after the loop raises a bare
`Exception("Failed after N attempts")`. -/
def retryActionAux {α : Type} (action : Nat → Except Exc α) (maxAttempts delay : Nat) :
    Nat → Nat → Except Exc α × List Nat
  | 0, _ =>
    (.error (.other ("Failed after " ++ toString maxAttempts ++ " attempts")), [])
  | remaining + 1, attempt =>
    match action attempt with
    | .ok v => (.ok v, [])
    | .error e =>
      if e.isTransient then
        let d := delay * 2 ^ attempt
        let p := retryActionAux action maxAttempts delay remaining (attempt + 1)
        (p.1, d :: p.2)
      else (.error e, [])

/-- part_000 `retry_action` with its default arguments
`max_attempts = 3`, `delay = 2`. -/
def retryAction {α : Type} (action : Nat → Except Exc α) : Except Exc α × List Nat :=
  retryActionAux action 3 2 3 0

/-- Modelled from the spec: the retry helper as the specification words it,
for comparison with the source definitions.  It re-invokes the operation up
to 3 times, retries ONLY when the failure is one of the defined transient
exception kinds, sleeps with exponential backoff, and after exhausting all
attempts raises a wrapped error whose message preserves the last underlying
cause. -/
def retrySpecAux {α : Type} (op : Nat → Except Exc α) (maxAttempts base : Nat) :
    Nat → Nat → Option Exc → Except Exc α × List Nat
  | 0, _, last =>
    (.error (.provisioning ("failed after " ++ toString maxAttempts
        ++ " attempts; last error: " ++ lastExcStr last)), [])
  | remaining + 1, attempt, _ =>
    match op attempt with
    | .ok v => (.ok v, [])
    | .error e =>
      if e.isTransient then
        let d := base * 2 ^ attempt
        let p := retrySpecAux op maxAttempts base remaining (attempt + 1) (some e)
        (p.1, d :: p.2)
      else (.error e, [])

/-- Modelled from the spec: top-level form of `retrySpecAux` with
`max_attempts = 3`. -/
def retrySpecModel {α : Type} (op : Nat → Except Exc α) : Except Exc α × List Nat :=
  retrySpecAux op 3 1 3 0 none

/-- A concrete operation whose first attempt fails with a NON-transient
exception and whose later attempts succeed. -/
def nonTransientThenOk : Nat → Except Exc Nat :=
  fun n => if n = 0 then .error (.other "boom") else .ok 42

/-! ## Ordered-fallback selector search -/

/-- One iteration of a fallback loop body of `script.py`:
`element = driver.find_element(By.XPATH, selector); act(element)` where
`act` is the action taken on the found element (a `_safe_click` or a
`clear` plus `send_keys`).  A missing element surfaces as
`NoSuchElementException`. -/
def attemptSelector (page : String → Lookup) (act : Element → Except Exc Unit)
    (s : String) : Except Exc Element :=
  match page s with
  | .found el =>
    match act el with
    | .ok _ => .ok el
    | .error e => .error e
  | .absent => .error .noSuchElement
  | .err e => .error e

/-- The ordered-fallback loop shared by `navigate_to_workspace` and
`add_new_user`: `for selector in selectors: try: ...; break except
NoSuchElementException: continue`.  Returns the element acted on (if any)
together with the list of selectors attempted; an exception other than
`NoSuchElementException` aborts the loop and propagates. -/
def fallbackSearch (page : String → Lookup) (act : Element → Except Exc Unit) :
    List String → Except Exc (Option Element) × List String
  | [] => (.ok none, [])
  | s :: rest =>
    match attemptSelector page act s with
    | .ok el => (.ok (some el), [s])
    | .error .noSuchElement =>
      let p := fallbackSearch page act rest
      (p.1, s :: p.2)
    | .error e => (.error e, [s])

/-! ## navigate_to_workspace -/

/-- The `workspace_selectors` list of `navigate_to_workspace` (f-strings
with the workspace name spliced in; quote characters elided). -/
def workspaceSelectors (name : String) : List String :=
  [ "//a[contains(text(), " ++ name ++ ")]"
  , "//div[contains(text(), " ++ name ++ ")]"
  , "//span[contains(text(), " ++ name ++ ")]"
  , "//*[@data-testid=workspace-name][contains(text(), " ++ name ++ ")]"
  , "//*[contains(@class, workspace)]//*[contains(text(), " ++ name ++ ")]" ]

/-- Environment of one `navigate_to_workspace` call: the page before and
after the fallback navigation to the boards URL, the outcome of that
navigation, and the outcome of `_safe_click` per element. -/
structure NavEnv where
  page1 : String → Lookup
  page2 : String → Lookup
  boardsNav : Except Exc Unit
  click : Element → Except Exc Unit

/-- `TrelloProvisioning.navigate_to_workspace`: tries the selector list on
the current page; if none matched, navigates to `https://trello.com/boards`
(failures of this alternative block are swallowed with a warning) and tries
the same list once more; if still not found raises `TrelloProvisioningError`
(workspace not found); the outer handler wraps any exception in a
`TrelloProvisioningError`. -/
def navigateToWorkspace (env : NavEnv) (name : String) : Except Exc Unit × List Ev :=
  let sels := workspaceSelectors name
  let p1 := fallbackSearch env.page1 env.click sels
  let evs1 := p1.2.map Ev.find
  let body : Except Exc Unit × List Ev :=
    match p1.1 with
    | .error e => (.error e, evs1)
    | .ok (some _) => (.ok (), evs1 ++ [.sleep 3])
    | .ok none =>
      match env.boardsNav with
      | .error _ =>
        (.error (.provisioning ("Workspace " ++ name ++ " not found")),
         evs1 ++ [.getUrl "https://trello.com/boards"])
      | .ok _ =>
        let p2 := fallbackSearch env.page2 env.click sels
        let evs2 := evs1 ++ [.getUrl "https://trello.com/boards", .sleep 3]
            ++ p2.2.map Ev.find
        match p2.1 with
        | .ok (some _) => (.ok (), evs2 ++ [.sleep 3])
        | _ =>
          (.error (.provisioning ("Workspace " ++ name ++ " not found")), evs2)
  match body with
  | (.ok _, evs) => (.ok (), evs)
  | (.error e, evs) =>
    (.error (.provisioning ("Failed to navigate to workspace " ++ name ++ ": "
        ++ e.str)), evs)

/-! ## add_new_user -/

/-- The `invite_selectors` list of `add_new_user` (quote characters elided). -/
def inviteSelectors : List String :=
  [ "//button[contains(text(), Invite)]"
  , "//button[contains(text(), Members)]"
  , "//a[contains(text(), Invite)]"
  , "//*[@data-testid=invite-button]"
  , "//*[@data-testid=members-button]"
  , "//button[contains(@class, invite)]"
  , "//button[contains(@title, Invite)]"
  , "//*[contains(@class, workspace-header)]//*[contains(text(), Invite)]" ]

/-- The `email_selectors` list of `add_new_user` (quote characters elided). -/
def emailSelectors : List String :=
  [ "//input[@placeholder*=email]"
  , "//input[@id*=email]"
  , "//input[@name*=email]"
  , "//input[@type=email]"
  , "//*[@data-testid=invite-email-input]"
  , "//textarea[contains(@placeholder, email)]" ]

/-- The `submit_selectors` list of `add_new_user` (quote characters elided). -/
def submitSelectors : List String :=
  [ "//button[contains(text(), Send)]"
  , "//button[contains(text(), Invite)]"
  , "//button[@type=submit]"
  , "//*[@data-testid=send-invite-button]"
  , "//input[@type=submit]" ]

/-- Environment of one `add_new_user` call: the page as seen by each of the
three fallback searches (the DOM changes as the invite modal opens), the
outcome of `_safe_click`, of `clear` plus `send_keys` on the email field,
and of the `Keys.ENTER` fallback. -/
structure InviteEnv where
  pageInvite : String → Lookup
  pageEmail : String → Lookup
  pageSubmit : String → Lookup
  click : Element → Except Exc Unit
  fill : Element → Except Exc Unit
  pressEnter : Except Exc Unit

/-- `TrelloProvisioning.add_new_user`: three ordered-fallback searches
(invite button, email input, submit button) in sequence; if no submit
control matched, tries `send_keys(Keys.ENTER)` on the email input under a
bare `except: pass`; exhaustion of a list raises `TrelloProvisioningError`;
the outer handler wraps any exception as
`Failed to add user EMAIL: CAUSE`. -/
def addNewUser (env : InviteEnv) (email : String) : Except Exc Unit × List Ev :=
  let p1 := fallbackSearch env.pageInvite env.click inviteSelectors
  let evs1 := p1.2.map Ev.find
  let body : Except Exc Unit × List Ev :=
    match p1.1 with
    | .error e => (.error e, evs1)
    | .ok none => (.error (.provisioning "Could not find invite/members button"), evs1)
    | .ok (some _) =>
      let evs1s := evs1 ++ [Ev.sleep 2]
      let p2 := fallbackSearch env.pageEmail env.fill emailSelectors
      let evs2 := evs1s ++ p2.2.map Ev.find
      match p2.1 with
      | .error e => (.error e, evs2)
      | .ok none => (.error (.provisioning "Could not find email input field"), evs2)
      | .ok (some _) =>
        let p3 := fallbackSearch env.pageSubmit env.click submitSelectors
        let evs3 := evs2 ++ p3.2.map Ev.find
        match p3.1 with
        | .error e => (.error e, evs3)
        | .ok (some _) => (.ok (), evs3 ++ [Ev.sleep 3])
        | .ok none =>
          match env.pressEnter with
          | .ok _ => (.ok (), evs3 ++ [Ev.pressEnter, Ev.sleep 3])
          | .error _ =>
            (.error (.provisioning "Could not find submit button to send invitation"),
             evs3)
  match body with
  | (.ok _, evs) => (.ok (), evs)
  | (.error e, evs) =>
    (.error (.provisioning ("Failed to add user " ++ email ++ ": " ++ e.str)), evs)

/-! ## CAPTCHA handling and login -/

/-- The `captcha_selectors` list of `_check_for_captcha` (quote characters
elided). -/
def captchaSelectors : List String :=
  [ "iframe[src*=recaptcha]"
  , ".g-recaptcha"
  , "#recaptcha"
  , ".captcha"
  , "iframe[title*=captcha]"
  , "iframe[title*=challenge]" ]

/-- `TrelloProvisioning._check_for_captcha`: returns true when any captcha
selector yields a non-empty `find_elements` result; exceptions of a lookup
are swallowed (`except Exception: continue`). -/
def checkForCaptcha (page : String → ElemsResult) : Bool :=
  captchaSelectors.any fun s =>
    match page s with
    | .elems l => !l.isEmpty
    | .raise _ => false

/-- `TrelloProvisioning._handle_captcha_if_present`: when a CAPTCHA is
detected, interactive mode blocks on `input(...)` (operator confirmation)
while headless mode raises `CaptchaDetectedException`. -/
def handleCaptchaIfPresent (headless : Bool) (page : String → ElemsResult) :
    Except Exc Unit × List Ev :=
  if checkForCaptcha page then
    if headless then
      (.error (.captcha "CAPTCHA detected in headless mode. Please run with --no-headless flag."),
       [])
    else
      (.ok (), [.waitForOperator])
  else (.ok (), [])

/-- Environment of one `login` call: headless flag, the `find_elements`
view of the page at each CAPTCHA check, and the outcomes of the individual
element waits and clicks. -/
structure LoginEnv where
  headless : Bool
  page1 : String → ElemsResult
  page2 : String → ElemsResult
  usernameField : Except Exc Element
  continueBtn : Lookup
  clickContinue : Except Exc Unit
  passwordField : Except Exc Element
  loginBtn : Except Exc Element
  clickLogin : Except Exc Unit
  waitSuccess : Bool
  stillOnLogin : Bool

/-- The part of `login` after the first CAPTCHA check: username entry,
optional continue button (`except NoSuchElementException` only), password
entry, second CAPTCHA check, submission, and the success wait (a timeout
while still on the login URL raises `TrelloProvisioningError`). -/
def loginAfterFirstCaptcha (env : LoginEnv) : Except Exc Unit × List Ev :=
  match env.usernameField with
  | .error e => (.error e, [])
  | .ok _ =>
    let contRes : Except Exc (List Ev) :=
      match env.continueBtn with
      | .found _ =>
        match env.clickContinue with
        | .ok _ => .ok [Ev.clickContinue, Ev.sleep 2]
        | .error e => .error e
      | .absent => .ok []
      | .err e => .error e
    match contRes with
    | .error e => (.error e, [Ev.enterUsername])
    | .ok evsC =>
      match env.passwordField with
      | .error e => (.error e, Ev.enterUsername :: evsC)
      | .ok _ =>
        let evsP := Ev.enterUsername :: evsC ++ [Ev.enterPassword]
        match handleCaptchaIfPresent env.headless env.page2 with
        | (.error e, evs) => (.error e, evsP ++ evs)
        | (.ok _, evsCap2) =>
          match env.loginBtn with
          | .error e => (.error e, evsP ++ evsCap2)
          | .ok _ =>
            match env.clickLogin with
            | .error e => (.error e, evsP ++ evsCap2)
            | .ok _ =>
              let evsS := evsP ++ evsCap2 ++ [Ev.submitLogin]
              if env.waitSuccess then (.ok (), evsS ++ [Ev.loginVerified])
              else if env.stillOnLogin then
                (.error (.provisioning "Login appears to have failed - still on login page"),
                 evsS)
              else (.ok (), evsS)

/-- Body of `TrelloProvisioning.login` inside its `try`: navigate to the
login URL, first CAPTCHA check, then the rest of the flow. -/
def loginBody (env : LoginEnv) : Except Exc Unit × List Ev :=
  match handleCaptchaIfPresent env.headless env.page1 with
  | (.error e, evs) => (.error e, Ev.getUrl "https://trello.com/login" :: evs)
  | (.ok _, evsCap1) =>
    let p := loginAfterFirstCaptcha env
    (p.1, Ev.getUrl "https://trello.com/login" :: (evsCap1 ++ p.2))

/-- `TrelloProvisioning.login`: `except CaptchaDetectedException: raise`
passes the challenge-blocked error through unwrapped; every other exception
is wrapped as `Login failed: CAUSE`. -/
def login (env : LoginEnv) : Except Exc Unit × List Ev :=
  match loginBody env with
  | (.ok _, evs) => (.ok (), evs)
  | (.error (.captcha m), evs) => (.error (.captcha m), evs)
  | (.error e, evs) => (.error (.provisioning ("Login failed: " ++ Exc.str e)), evs)

/-! ## verify_user_added (script.py) and verify_user_addition (part_000) -/

/-- The `user_verification_selectors` list of `verify_user_added`
(f-strings with the email spliced in; quote characters elided). -/
def userVerificationSelectors (email : String) : List String :=
  [ "//*[contains(text(), " ++ email ++ ")]"
  , "//span[contains(@title, " ++ email ++ ")]"
  , "//*[@data-testid=member][contains(., " ++ email ++ ")]"
  , "//*[contains(@class, member)][contains(., " ++ email ++ ")]" ]

/-- The `success_selectors` list of `verify_user_added` (quote characters
elided). -/
def successSelectors : List String :=
  [ "//*[contains(text(), invited)]"
  , "//*[contains(text(), sent)]"
  , "//*[contains(text(), added)]"
  , "//*[contains(@class, success)]" ]

/-- Outcome of the first scan loop of `verify_user_added`. -/
inductive LoopOut where
  | hit
  | miss
  | blew (e : Exc)
deriving DecidableEq, Repr

/-- First loop of `verify_user_added`: `try: elements = find_elements(...);
if elements: return True except NoSuchElementException: continue` — any
other exception escapes the loop (to the outer handler).  Also returns the
selectors queried. -/
def scanNse (page : String → ElemsResult) : List String → LoopOut × List String
  | [] => (.miss, [])
  | s :: rest =>
    match page s with
    | .elems l =>
      if l.isEmpty then
        let p := scanNse page rest
        (p.1, s :: p.2)
      else (.hit, [s])
    | .raise e =>
      if e = .noSuchElement then
        let p := scanNse page rest
        (p.1, s :: p.2)
      else (.blew e, [s])

/-- Second loop of `verify_user_added`: same scan under a bare
`except: continue`, so every exception is swallowed. -/
def scanBare (page : String → ElemsResult) : List String → Bool × List String
  | [] => (false, [])
  | s :: rest =>
    match page s with
    | .elems l =>
      if l.isEmpty then
        let p := scanBare page rest
        (p.1, s :: p.2)
      else (true, [s])
    | .raise _ =>
      let p := scanBare page rest
      (p.1, s :: p.2)

/-- `TrelloProvisioning.verify_user_added`: scans the user-verification
selectors, then the success-message selectors; the outer
`except Exception: return False` turns any escaped exception into `False`.
Always returns a boolean; the trace records the selectors queried (there is
no polling loop and no sleep in this function). -/
def verifyUserAdded (page : String → ElemsResult) (email : String) : Bool × List Ev :=
  let p1 := scanNse page (userVerificationSelectors email)
  match p1.1 with
  | .hit => (true, p1.2.map Ev.find)
  | .blew _ => (false, p1.2.map Ev.find)
  | .miss =>
    let p2 := scanBare page successSelectors
    (p2.1, (p1.2 ++ p2.2).map Ev.find)

/-- Loop of part_000 `verify_user_addition`: up to 3 attempts of
`wait.until(presence_of_element_located(member_xpath))`; a
`TimeoutException` sleeps 2 seconds and repeats; any other exception
escapes to the outer handler, which returns `False`.  The attempt outcomes
are indexed by attempt; the returned list collects the sleeps. -/
def verifyAdditionAux (ar : Nat → Except Exc Element) : Nat → Nat → Bool × List Nat
  | 0, _ => (false, [])
  | fuel + 1, i =>
    match ar i with
    | .ok _ => (true, [])
    | .error (.timeout _) =>
      let p := verifyAdditionAux ar fuel (i + 1)
      (p.1, 2 :: p.2)
    | .error _ => (false, [])

/-- part_000 `TrelloUserProvisioning.verify_user_addition` (3 polling
attempts, fixed 2-second delay). -/
def verifyUserAddition (ar : Nat → Except Exc Element) : Bool × List Nat :=
  verifyAdditionAux ar 3 0

/-- A page on which no selector matches any element. -/
def emptyElemsPage : String → ElemsResult := fun _ => .elems []

/-! ## run_provisioning and cleanup -/

/-- Outcomes of the five workflow steps of one `run_provisioning` call. -/
structure StepOutcomes where
  setupDriver : Except Exc Unit
  login : Except Exc Unit
  navigate : Except Exc Unit
  addUser : Except Exc Unit
  verify : Bool

/-- The `try` block of `run_provisioning`: `_setup_driver`, `login`,
`navigate_to_workspace`, `add_new_user`, `verify_user_added`, each stopping
the sequence when it raises. -/
def runBody (o : StepOutcomes) : Except Exc Bool × List Ev :=
  match o.setupDriver with
  | .error e => (.error e, [.setupDriver])
  | .ok _ =>
    match o.login with
    | .error e => (.error e, [.setupDriver, .loginStep])
    | .ok _ =>
      match o.navigate with
      | .error e => (.error e, [.setupDriver, .loginStep, .navigateStep])
      | .ok _ =>
        match o.addUser with
        | .error e => (.error e, [.setupDriver, .loginStep, .navigateStep, .addUserStep])
        | .ok _ =>
          (.ok o.verify,
           [.setupDriver, .loginStep, .navigateStep, .addUserStep, .verifyStep])

/-- `TrelloProvisioning.run_provisioning`: catches
`CaptchaDetectedException`, `TrelloProvisioningError` and any other
`Exception` (each only logged, leaving `success = False`), and runs
`cleanup` in a `finally` block on every path. -/
def runProvisioning (o : StepOutcomes) : Bool × List Ev :=
  let p := runBody o
  match p.1 with
  | .ok b => (b, p.2 ++ [.cleanupStep])
  | .error (.captcha _) => (false, p.2 ++ [.cleanupStep])
  | .error (.provisioning _) => (false, p.2 ++ [.cleanupStep])
  | .error _ => (false, p.2 ++ [.cleanupStep])

/-- `TrelloProvisioning.cleanup`: `if self.driver: try: driver.quit()
except Exception: log warning`.  A missing driver is a no-op; a failing
quit is swallowed. -/
def cleanupScript (s : ScriptState) : Except Exc Unit × List Ev :=
  match s.driver with
  | none => (.ok (), [])
  | some d =>
    match d.quitResult with
    | .ok _ => (.ok (), [.quit])
    | .error _ => (.ok (), [.quit, .logWarn])

/-- part_000 `TrelloUserProvisioning.cleanup`: `try: if driver: quit()
except Exception: log error finally: driver = None; wait = None`. -/
def cleanupPart (p : PartState) : PartState × Except Exc Unit × List Ev :=
  let evs :=
    match p.driver with
    | none => []
    | some d =>
      match d.quitResult with
      | .ok _ => [Ev.quit]
      | .error _ => [Ev.quit, Ev.logWarn]
  ({ p with driver := none, wait := none }, .ok (), evs)

/-! ## Concrete instances used in witnesses and counterexamples -/

/-- An operation failing with transient timeouts on its first two attempts
and succeeding on the third. -/
def failTwiceThenOk : Nat → Except Exc Nat :=
  fun n => if n < 2 then .error (.timeout "t") else .ok 7

/-- An operation failing with a transient timeout on every attempt. -/
def alwaysTimeout : Nat → Except Exc Nat :=
  fun _ => .error (.timeout "t")

/-- An operation failing with a non-transient generic exception on every
attempt. -/
def alwaysBoom : Nat → Except Exc Nat :=
  fun _ => .error (.other "boom")

/-- A page on which every `find_elements` lookup raises a generic driver
exception. -/
def raisingPage : String → ElemsResult := fun _ => .raise (.other "boom")

/-- A member-list wait that times out on every polling attempt. -/
def alwaysTimeoutWait : Nat → Except Exc Element :=
  fun _ => .error (.timeout "t")

/-- A fake DOM on which only the selector named sel3 matches. -/
def fakeDom3 : String → Lookup :=
  fun s => if s = "sel3" then .found { id := 3, text := "ws" } else .absent

/-- A click action that always succeeds. -/
def clickOk : Element → Except Exc Unit := fun _ => .ok ()

/-- An environment with no variables set. -/
def emptyEnv : String → Option String := fun _ => none

/-- A page on which every captcha selector matches an element. -/
def captchaPage : String → ElemsResult :=
  fun _ => .elems [{ id := 1, text := "captcha" }]

/-- A login environment whose login page shows a CAPTCHA and whose other
interactions would all succeed. -/
def captchaLoginEnv : LoginEnv where
  headless := true
  page1 := captchaPage
  page2 := emptyElemsPage
  usernameField := .ok { id := 2, text := "user" }
  continueBtn := .absent
  clickContinue := .ok ()
  passwordField := .ok { id := 3, text := "pass" }
  loginBtn := .ok { id := 4, text := "submit" }
  clickLogin := .ok ()
  waitSuccess := true
  stillOnLogin := false

/-- A navigation environment in which no workspace selector matches on
either page and the boards navigation succeeds. -/
def absentNavEnv : NavEnv where
  page1 := fun _ => .absent
  page2 := fun _ => .absent
  boardsNav := .ok ()
  click := clickOk

/-- A fake DOM on which sel2 raises a timeout (a non-element-not-found
failure) and every other selector is absent. -/
def errDom : String → Lookup :=
  fun s => if s = "sel2" then .err (.timeout "boom") else .absent

/-- An invite environment in which the first invite selector raises a
timeout while locating. -/
def errInviteEnv : InviteEnv where
  pageInvite := fun s =>
    if s = "//button[contains(text(), Invite)]" then .err (.timeout "boom") else .absent
  pageEmail := fun _ => .absent
  pageSubmit := fun _ => .absent
  click := clickOk
  fill := clickOk
  pressEnter := .ok ()

/-- A navigation environment in which the first workspace selector raises
a timeout while locating. -/
def errNavEnv : NavEnv where
  page1 := fun s =>
    if s = "//a[contains(text(), Project X)]" then .err (.timeout "boom") else .absent
  page2 := fun _ => .absent
  boardsNav := .ok ()
  click := clickOk

/-- A script state that never created a driver. -/
def noDriverState : ScriptState :=
  { headless := true, waitTimeout := 10, maxRetries := 3, retryDelayBase := 1,
    credentials := { username := "u", password := "p" }, driver := none }

/-- A script state whose driver fails when quit. -/
def failingQuitState : ScriptState :=
  { headless := true, waitTimeout := 10, maxRetries := 3, retryDelayBase := 1,
    credentials := { username := "u", password := "p" },
    driver := some { quitResult := .error (.other "boom") } }

/-- A part_000 state with a live (but failing-to-quit) driver and wait. -/
def somePartState : PartState :=
  { driver := some { quitResult := .error (.other "boom") }, wait := some (),
    headless := true, timeout := 30, baseUrl := "https://trello.com",
    loginUrl := "https://trello.com/login", username := "u", password := "p",
    workspaceName := "Project X", newUserEmail := "newuser@example.com",
    newUserRole := "Member" }

/-! ## Theorems -/

/-- C1 (counterexample).  The claim says the retry helper retries only when
the failure is one of the defined transient exception kinds.
`_retry_operation` retries on ANY exception: handed an operation whose
first attempt fails with a non-transient generic exception, it retries
(sleeping once) and returns the later success, where the helper described
by the claim (`retrySpecModel`) would let the non-transient failure
surface. -/
theorem retry_transient_only_counterexample :
    retryOperation nonTransientThenOk "click_operation" = (.ok 42, [1])
    ∧ (retrySpecModel nonTransientThenOk).1 = .error (.other "boom")
    ∧ (retryOperation nonTransientThenOk "click_operation").1
        ≠ (retrySpecModel nonTransientThenOk).1 := by
  refine ⟨rfl, rfl, ?_⟩
  intro h
  simp [retryOperation, retryOpAux, retrySpecModel, retrySpecAux, nonTransientThenOk,
    Exc.isTransient] at h

/-- C1 (amended).  `script.py` `_retry_operation` re-invokes the operation
up to 3 times, retrying on ANY exception, sleeping
`retry_delay_base * 2 ** attempt` (1s, 2s, 4s) after each failed attempt
including the last, and after exhausting all attempts raises a
`TrelloProvisioningError` whose message preserves the last underlying
cause; part_000 `retry_action` retries up to 3 times only on the transient
kinds with backoff `2 * 2 ** attempt`, propagates any other exception
immediately, and after exhausting all attempts raises a generic error that
does not name the cause; both return the success result of an operation
that fails twice then succeeds under 3 attempts, with strictly increasing
sleeps between attempts. -/
theorem retry_helpers_amended {α : Type} (op act opAll actAll actBad : Nat → Except Exc α)
    (name : String) (v w : α) (e0 e1 t0 t1 u0 u1 u2 s0 s1 s2 b : Exc)
    (hop0 : op 0 = .error e0) (hop1 : op 1 = .error e1) (hop2 : op 2 = .ok v)
    (hact0 : act 0 = .error t0) (ht0 : t0.isTransient = true)
    (hact1 : act 1 = .error t1) (ht1 : t1.isTransient = true)
    (hact2 : act 2 = .ok w)
    (hall0 : opAll 0 = .error u0) (hall1 : opAll 1 = .error u1) (hall2 : opAll 2 = .error u2)
    (hfa0 : actAll 0 = .error s0) (hs0 : s0.isTransient = true)
    (hfa1 : actAll 1 = .error s1) (hs1 : s1.isTransient = true)
    (hfa2 : actAll 2 = .error s2) (hs2 : s2.isTransient = true)
    (hbad : actBad 0 = .error b) (hb : b.isTransient = false) :
    retryOperation op name = (.ok v, [1, 2])
    ∧ retryAction act = (.ok w, [2, 4])
    ∧ retryOperation opAll name =
        (.error (.provisioning ("Operation " ++ name ++ " failed after "
          ++ toString 3 ++ " attempts. Last error: " ++ u2.str)), [1, 2, 4])
    ∧ retryAction actAll = (.error (.other "Failed after 3 attempts"), [2, 4, 8])
    ∧ retryAction actBad = (.error b, []) := by
  refine ⟨?_, ?_, ?_, ?_, ?_⟩
  · simp [retryOperation, retryOpAux, hop0, hop1, hop2]
  · simp [retryAction, retryActionAux, hact0, hact1, hact2, ht0, ht1]
  · simp [retryOperation, retryOpAux, hall0, hall1, hall2, lastExcStr]
  · simp [retryAction, retryActionAux, hfa0, hfa1, hfa2, hs0, hs1, hs2]
    rfl
  · simp [retryAction, retryActionAux, hbad, hb]

/-- C1 (witness).  The amended retry behaviour evaluated on concrete
operations. -/
theorem retry_helpers_amended_witness :
    retryOperation failTwiceThenOk "click_operation" = (.ok 7, [1, 2])
    ∧ retryAction failTwiceThenOk = (.ok 7, [2, 4])
    ∧ retryOperation alwaysTimeout "click_operation" =
        (.error (.provisioning ("Operation " ++ "click_operation" ++ " failed after "
          ++ toString 3 ++ " attempts. Last error: " ++ (Exc.timeout "t").str)), [1, 2, 4])
    ∧ retryAction alwaysTimeout = (.error (.other "Failed after 3 attempts"), [2, 4, 8])
    ∧ retryAction alwaysBoom = (.error (.other "boom"), []) :=
  retry_helpers_amended failTwiceThenOk failTwiceThenOk alwaysTimeout alwaysTimeout
    alwaysBoom "click_operation" 7 7 (.timeout "t") (.timeout "t") (.timeout "t")
    (.timeout "t") (.timeout "t") (.timeout "t") (.timeout "t") (.timeout "t")
    (.timeout "t") (.timeout "t") (.other "boom")
    rfl rfl rfl rfl rfl rfl rfl rfl rfl rfl rfl rfl rfl rfl rfl rfl rfl rfl rfl

/-- Helper: when no selector yields a non-empty element list, the first
scan loop of `verify_user_added` never hits. -/
theorem scanNse_no_hit (page : String → ElemsResult)
    (h : ∀ s l, page s = .elems l → l = []) :
    ∀ sels, (scanNse page sels).1 ≠ LoopOut.hit := by
  intro sels
  induction sels with
  | nil => simp [scanNse]
  | cons s rest ih =>
    simp only [scanNse]
    cases hps : page s with
    | elems l =>
      have hl : l = [] := h s l hps
      subst hl
      simpa using ih
    | raise e =>
      by_cases he : e = .noSuchElement
      · simpa [he] using ih
      · simp [he]

/-- Helper: when no selector yields a non-empty element list, the second
scan loop of `verify_user_added` returns false. -/
theorem scanBare_no_hit (page : String → ElemsResult)
    (h : ∀ s l, page s = .elems l → l = []) :
    ∀ sels, (scanBare page sels).1 = false := by
  intro sels
  induction sels with
  | nil => simp [scanBare]
  | cons s rest ih =>
    simp only [scanBare]
    cases hps : page s with
    | elems l =>
      have hl : l = [] := h s l hps
      subst hl
      simpa using ih
    | raise e => simpa using ih

/-- Helper: when no polling attempt of part_000 `verify_user_addition`
yields an element, the loop returns false. -/
theorem verifyAdditionAux_false (ar : Nat → Except Exc Element) :
    ∀ fuel i, (∀ j, j < fuel → ∀ el, ar (i + j) ≠ .ok el) →
    (verifyAdditionAux ar fuel i).1 = false := by
  intro fuel
  induction fuel with
  | zero => intro i _; rfl
  | succ n ih =>
    intro i h
    simp only [verifyAdditionAux]
    cases hr : ar i with
    | ok el =>
      have h0 := h 0 (Nat.succ_pos n) el
      rw [Nat.add_zero] at h0
      exact absurd hr h0
    | error e =>
      have hrec := ih (i + 1) (fun j hj el => by
        have heq : i + 1 + j = i + (j + 1) := by omega
        rw [heq]
        exact h (j + 1) (Nat.succ_lt_succ hj) el)
      cases e <;> simp [hrec]

/-- C2.  For every email and every page state in which no verification
selector matches any element (lookups may even raise arbitrary driver
exceptions), `verify_user_added` returns `False` rather than failing; and
part_000 `verify_user_addition` returns `False` whenever none of its three
polling attempts yields an element (timeouts and arbitrary exceptions
alike). -/
theorem verifier_never_raises :
    (∀ (page : String → ElemsResult) (email : String),
      (∀ s l, page s = .elems l → l = []) → (verifyUserAdded page email).1 = false)
    ∧ (∀ ar : Nat → Except Exc Element,
      (∀ i, i < 3 → ∀ el, ar i ≠ .ok el) → (verifyUserAddition ar).1 = false) := by
  constructor
  · intro page email h
    simp only [verifyUserAdded]
    cases hscan : (scanNse page (userVerificationSelectors email)).1 with
    | hit => exact absurd hscan (scanNse_no_hit page h _)
    | miss => simpa using scanBare_no_hit page h successSelectors
    | blew e => simp
  · intro ar h
    exact verifyAdditionAux_false ar 3 0 (fun j hj el => by
      have := h j hj el
      simpa using this)

/-- C2 (witness).  A page whose every lookup raises still verifies to
`False`, and an always-timing-out member-list wait polls to `False`. -/
theorem verifier_never_raises_witness :
    (verifyUserAdded raisingPage "newuser@example.com").1 = false
    ∧ (verifyUserAddition alwaysTimeoutWait).1 = false :=
  ⟨verifier_never_raises.1 raisingPage "newuser@example.com"
      (fun s l hl => by simp [raisingPage] at hl),
   verifier_never_raises.2 alwaysTimeoutWait
      (fun i _ el hl => by simp [alwaysTimeoutWait] at hl)⟩

/-- C3.  In an ordered-fallback search, when every selector before `s`
fails with element-not-found and `s` matches an element on which the
action succeeds, the search acts on that element and attempts no selector
after `s`: the list of attempted selectors is exactly the prefix up to and
including `s`. -/
theorem fallback_first_match (page : String → Lookup) (act : Element → Except Exc Unit)
    (pre : List String) (s : String) (post : List String) (el : Element)
    (hpre : ∀ t ∈ pre, attemptSelector page act t = .error .noSuchElement)
    (hs : attemptSelector page act s = .ok el) :
    fallbackSearch page act (pre ++ s :: post) = (.ok (some el), pre ++ [s]) := by
  induction pre with
  | nil => simp [fallbackSearch, hs]
  | cons t rest ih =>
    have ht := hpre t (List.mem_cons_self t rest)
    have hrest : ∀ u ∈ rest, attemptSelector page act u = .error .noSuchElement :=
      fun u hu => hpre u (List.mem_cons_of_mem t hu)
    simp [fallbackSearch, ht, ih hrest]

/-- C3 (witness).  On a fake DOM where only the 3rd of five selectors
matches, the fallback search returns that match, attempting exactly the
first three selectors. -/
theorem fallback_first_match_witness :
    fallbackSearch fakeDom3 clickOk ["sel1", "sel2", "sel3", "sel4", "sel5"]
      = (.ok (some { id := 3, text := "ws" }), ["sel1", "sel2", "sel3"]) :=
  fallback_first_match fakeDom3 clickOk ["sel1", "sel2"] "sel3" ["sel4", "sel5"]
    { id := 3, text := "ws" }
    (by intro t ht; fin_cases ht <;> rfl) rfl

/-- C4.  If either required credential environment variable is unset or
empty, construction fails with the configuration error
(`TrelloProvisioningError` for `script.py`, `ValueError` for part_000) and
the construction trace contains no browser or WebDriver event. -/
theorem missing_credentials_config_error :
    (∀ (env : String → Option String) (headless : Bool) (t : Nat),
      envTruthy (env "TRELLO_USERNAME") = false
        ∨ envTruthy (env "TRELLO_PASSWORD") = false →
      initScript env headless t =
        (.error (.provisioning "TRELLO_USERNAME and TRELLO_PASSWORD must be set in .env file"),
         [.setupLogging, .loadDotenv])
      ∧ ((initScript env headless t).2.all fun e => !e.isBrowser) = true)
    ∧ (∀ (env : String → Option String) (headless : Bool) (t : Nat),
      envTruthy (env "TRELL_USERNAME") = false
        ∨ envTruthy (env "TRELL_PASSWORD") = false →
      initPart env headless t =
        (.error (.valueError "TRELL_USERNAME or TRELL_PASSWORD missing in .env file."), [])) := by
  constructor
  · intro env headless t h
    have hc : (envTruthy (env "TRELLO_USERNAME")
        && envTruthy (env "TRELLO_PASSWORD")) = false := by
      rcases h with h | h <;> simp [h]
    constructor
    · simp [initScript, loadCredentials, hc]
    · simp [initScript, loadCredentials, hc, Ev.isBrowser]
  · intro env headless t h
    have hc : (envTruthy (env "TRELL_USERNAME")
        && envTruthy (env "TRELL_PASSWORD")) = false := by
      rcases h with h | h <;> simp [h]
    simp [initPart, hc]

/-- C4 (witness).  With an empty environment both constructors fail with
their configuration errors, performing no browser action. -/
theorem missing_credentials_config_error_witness :
    initScript emptyEnv true 10 =
      (.error (.provisioning "TRELLO_USERNAME and TRELLO_PASSWORD must be set in .env file"),
       [.setupLogging, .loadDotenv])
    ∧ initPart emptyEnv true 30 =
      (.error (.valueError "TRELL_USERNAME or TRELL_PASSWORD missing in .env file."), []) :=
  ⟨(missing_credentials_config_error.1 emptyEnv true 10 (Or.inl rfl)).1,
   missing_credentials_config_error.2 emptyEnv true 30 (Or.inl rfl)⟩

/-- C5.  When the login page shows a CAPTCHA: in headless (unattended)
mode `login` fails with the distinct `CaptchaDetectedException` and its
trace stops after the navigation to the login URL — no username entry,
password entry or form submission is attempted; in interactive
(non-headless) mode the run instead pauses and waits for operator
confirmation right after the navigation. -/
theorem captcha_headless_blocks_login (env : LoginEnv)
    (hcap : checkForCaptcha env.page1 = true) :
    (env.headless = true →
      login env =
        (.error (.captcha "CAPTCHA detected in headless mode. Please run with --no-headless flag."),
         [Ev.getUrl "https://trello.com/login"]))
    ∧ (login { env with headless := false }).2.take 2
        = [Ev.getUrl "https://trello.com/login", Ev.waitForOperator] := by
  constructor
  · intro hh
    simp [login, loginBody, handleCaptchaIfPresent, hcap, hh]
  · rcases hl : loginAfterFirstCaptcha { env with headless := false } with ⟨r, evs⟩
    cases r with
    | ok u => simp [login, loginBody, handleCaptchaIfPresent, hcap, hl, List.take]
    | error e =>
      cases e <;> simp [login, loginBody, handleCaptchaIfPresent, hcap, hl, List.take]

/-- C5 (witness).  The CAPTCHA-blocked login evaluated on a concrete
environment whose login page matches every captcha selector. -/
theorem captcha_headless_blocks_login_witness :
    checkForCaptcha captchaLoginEnv.page1 = true
    ∧ login captchaLoginEnv =
        (.error (.captcha "CAPTCHA detected in headless mode. Please run with --no-headless flag."),
         [Ev.getUrl "https://trello.com/login"])
    ∧ (login { captchaLoginEnv with headless := false }).2.take 2
        = [Ev.getUrl "https://trello.com/login", Ev.waitForOperator] :=
  ⟨rfl, (captcha_headless_blocks_login captchaLoginEnv rfl).1 rfl,
   (captcha_headless_blocks_login captchaLoginEnv rfl).2⟩

/-- Helper: a fallback search over selectors that are all absent exhausts
the whole list without a match. -/
theorem fallbackSearch_all_absent (page : String → Lookup)
    (act : Element → Except Exc Unit) :
    ∀ sels, (∀ s ∈ sels, page s = .absent) →
    fallbackSearch page act sels = (.ok none, sels) := by
  intro sels
  induction sels with
  | nil => intro _; rfl
  | cons s rest ih =>
    intro h
    have hs := h s (List.mem_cons_self s rest)
    have hrest := fun u hu => h u (List.mem_cons_of_mem s hu)
    simp [fallbackSearch, attemptSelector, hs, ih hrest]

/-- Helper: a fallback search aborts on the first selector whose attempt
fails with an exception other than element-not-found. -/
theorem fallbackSearch_abort (page : String → Lookup)
    (act : Element → Except Exc Unit) (pre : List String) (s : String)
    (post : List String) (e : Exc)
    (hpre : ∀ t ∈ pre, attemptSelector page act t = .error .noSuchElement)
    (hs : attemptSelector page act s = .error e) (hne : e ≠ .noSuchElement) :
    fallbackSearch page act (pre ++ s :: post) = (.error e, pre ++ [s]) := by
  induction pre with
  | nil =>
    cases e <;> first
      | exact absurd rfl hne
      | simp [fallbackSearch, hs]
  | cons t rest ih =>
    have ht := hpre t (List.mem_cons_self t rest)
    have hrest : ∀ u ∈ rest, attemptSelector page act u = .error .noSuchElement :=
      fun u hu => hpre u (List.mem_cons_of_mem t hu)
    simp [fallbackSearch, ht, ih hrest]

/-- C6.  When no workspace selector matches on the current page,
`navigate_to_workspace` navigates to the boards listing URL and retries
the same selector list exactly once more; when the list is exhausted again
the call fails with a reported workspace-not-found
`TrelloProvisioningError`, which the top level of `run_provisioning`
catches (the run returns `False` instead of crashing). -/
theorem workspace_not_found_reported (env : NavEnv) (name : String)
    (h1 : ∀ s ∈ workspaceSelectors name, env.page1 s = Lookup.absent)
    (h2 : ∀ s ∈ workspaceSelectors name, env.page2 s = Lookup.absent)
    (h3 : env.boardsNav = .ok ()) :
    navigateToWorkspace env name =
      (.error (.provisioning ("Failed to navigate to workspace " ++ name ++ ": "
          ++ ("Workspace " ++ name ++ " not found"))),
       (workspaceSelectors name).map Ev.find
         ++ [Ev.getUrl "https://trello.com/boards", Ev.sleep 3]
         ++ (workspaceSelectors name).map Ev.find)
    ∧ (∀ o : StepOutcomes, o.navigate = (navigateToWorkspace env name).1 →
        (runProvisioning o).1 = false) := by
  have hfb1 := fallbackSearch_all_absent env.page1 env.click (workspaceSelectors name) h1
  have hfb2 := fallbackSearch_all_absent env.page2 env.click (workspaceSelectors name) h2
  have hnav : navigateToWorkspace env name =
      (.error (.provisioning ("Failed to navigate to workspace " ++ name ++ ": "
          ++ ("Workspace " ++ name ++ " not found"))),
       (workspaceSelectors name).map Ev.find
         ++ [Ev.getUrl "https://trello.com/boards", Ev.sleep 3]
         ++ (workspaceSelectors name).map Ev.find) := by
    simp [navigateToWorkspace, hfb1, hfb2, h3, Exc.str]
  refine ⟨hnav, ?_⟩
  intro o ho
  rw [hnav] at ho
  rcases o with ⟨sd, lg, nv, au, vf⟩
  simp only at ho
  subst ho
  cases sd with
  | error e => cases e <;> simp [runProvisioning, runBody]
  | ok u =>
    cases lg with
    | error e2 => cases e2 <;> simp [runProvisioning, runBody]
    | ok u2 => simp [runProvisioning, runBody]

/-- C6 (witness).  The exhausted-selectors outcome on a concrete
environment where nothing matches, and the top-level catch of it. -/
theorem workspace_not_found_reported_witness :
    navigateToWorkspace absentNavEnv "Project X" =
      (.error (.provisioning ("Failed to navigate to workspace " ++ "Project X" ++ ": "
          ++ ("Workspace " ++ "Project X" ++ " not found"))),
       (workspaceSelectors "Project X").map Ev.find
         ++ [Ev.getUrl "https://trello.com/boards", Ev.sleep 3]
         ++ (workspaceSelectors "Project X").map Ev.find)
    ∧ (runProvisioning
        { setupDriver := .ok (), login := .ok (),
          navigate := (navigateToWorkspace absentNavEnv "Project X").1,
          addUser := .ok (), verify := true }).1 = false :=
  ⟨(workspace_not_found_reported absentNavEnv "Project X"
      (fun _ _ => rfl) (fun _ _ => rfl) rfl).1,
   (workspace_not_found_reported absentNavEnv "Project X"
      (fun _ _ => rfl) (fun _ _ => rfl) rfl).2 _ rfl⟩

/-- Helper: `run_provisioning` always appends exactly one cleanup event
after the events of its `try` block. -/
theorem runProvisioning_trace (o : StepOutcomes) :
    (runProvisioning o).2 = (runBody o).2 ++ [Ev.cleanupStep] := by
  rcases hb : runBody o with ⟨r, evs⟩
  cases r with
  | ok b => simp [runProvisioning, hb]
  | error e => cases e <;> simp [runProvisioning, hb]

/-- Helper: the `try` block of `run_provisioning` emits no cleanup event
itself. -/
theorem runBody_no_cleanup (o : StepOutcomes) :
    ((runBody o).2).count Ev.cleanupStep = 0 := by
  rcases o with ⟨sd, lg, nv, au, vf⟩
  rcases sd with u | e <;> rcases lg with u2 | e2 <;> rcases nv with u3 | e3 <;>
    rcases au with u4 | e4 <;> simp [runBody]

/-- C7.  On every run of `run_provisioning` — successful completion,
challenge-blocked error, reported workflow error and unexpected exception
alike — cleanup is invoked exactly once, and it is the final event of the
run. -/
theorem cleanup_exactly_once (o : StepOutcomes) :
    ((runProvisioning o).2).count Ev.cleanupStep = 1
    ∧ ((runProvisioning o).2).getLast? = some Ev.cleanupStep := by
  have ht := runProvisioning_trace o
  constructor
  · rw [ht, List.count_append, runBody_no_cleanup o]
    decide
  · rw [ht]
    simp

/-- C9.  An ordered-fallback search advances to the next selector only
when the current attempt fails with element-not-found; any other failure
while locating or acting aborts the remaining selectors (first conjunct),
and makes the whole step fail wrapped as a `TrelloProvisioningError`
(second conjunct for the invite search of `add_new_user`, third for the
workspace search of `navigate_to_workspace`). -/
theorem fallback_nse_only_advance :
    (∀ (page : String → Lookup) (act : Element → Except Exc Unit)
        (pre : List String) (s : String) (post : List String) (e : Exc),
      (∀ t ∈ pre, attemptSelector page act t = .error .noSuchElement) →
      attemptSelector page act s = .error e → e ≠ .noSuchElement →
      fallbackSearch page act (pre ++ s :: post) = (.error e, pre ++ [s]))
    ∧ (∀ (env : InviteEnv) (email : String)
        (pre : List String) (s : String) (post : List String) (e : Exc),
      inviteSelectors = pre ++ s :: post →
      (∀ t ∈ pre, attemptSelector env.pageInvite env.click t = .error .noSuchElement) →
      attemptSelector env.pageInvite env.click s = .error e → e ≠ .noSuchElement →
      (addNewUser env email).1 =
        .error (.provisioning ("Failed to add user " ++ email ++ ": " ++ Exc.str e)))
    ∧ (∀ (env : NavEnv) (name : String)
        (pre : List String) (s : String) (post : List String) (e : Exc),
      workspaceSelectors name = pre ++ s :: post →
      (∀ t ∈ pre, attemptSelector env.page1 env.click t = .error .noSuchElement) →
      attemptSelector env.page1 env.click s = .error e → e ≠ .noSuchElement →
      (navigateToWorkspace env name).1 =
        .error (.provisioning ("Failed to navigate to workspace " ++ name ++ ": "
          ++ Exc.str e))) := by
  refine ⟨fun page act pre s post e hpre hs hne =>
      fallbackSearch_abort page act pre s post e hpre hs hne, ?_, ?_⟩
  · intro env email pre s post e hsel hpre hs hne
    have hfb := fallbackSearch_abort env.pageInvite env.click pre s post e hpre hs hne
    rw [← hsel] at hfb
    simp [addNewUser, hfb]
  · intro env name pre s post e hsel hpre hs hne
    have hfb := fallbackSearch_abort env.page1 env.click pre s post e hpre hs hne
    rw [← hsel] at hfb
    simp [navigateToWorkspace, hfb]

/-- C9 (witness).  The abort behaviour evaluated on concrete pages whose
offending selector raises a timeout. -/
theorem fallback_nse_only_advance_witness :
    fallbackSearch errDom clickOk ["sel1", "sel2", "sel3"]
      = (.error (.timeout "boom"), ["sel1", "sel2"])
    ∧ (addNewUser errInviteEnv "newuser@example.com").1 =
        .error (.provisioning ("Failed to add user " ++ "newuser@example.com" ++ ": "
          ++ Exc.str (.timeout "boom")))
    ∧ (navigateToWorkspace errNavEnv "Project X").1 =
        .error (.provisioning ("Failed to navigate to workspace " ++ "Project X" ++ ": "
          ++ Exc.str (.timeout "boom"))) :=
  ⟨fallback_nse_only_advance.1 errDom clickOk ["sel1"] "sel2" ["sel3"]
      (.timeout "boom") (by intro t ht; fin_cases ht; rfl) rfl (by decide),
   fallback_nse_only_advance.2.1 errInviteEnv "newuser@example.com" []
      "//button[contains(text(), Invite)]"
      [ "//button[contains(text(), Members)]"
      , "//a[contains(text(), Invite)]"
      , "//*[@data-testid=invite-button]"
      , "//*[@data-testid=members-button]"
      , "//button[contains(@class, invite)]"
      , "//button[contains(@title, Invite)]"
      , "//*[contains(@class, workspace-header)]//*[contains(text(), Invite)]" ]
      (.timeout "boom") rfl (fun t ht => nomatch ht) rfl (by decide),
   fallback_nse_only_advance.2.2 errNavEnv "Project X" []
      "//a[contains(text(), Project X)]"
      [ "//div[contains(text(), Project X)]"
      , "//span[contains(text(), Project X)]"
      , "//*[@data-testid=workspace-name][contains(text(), Project X)]"
      , "//*[contains(@class, workspace)]//*[contains(text(), Project X)]" ]
      (.timeout "boom") rfl (fun t ht => nomatch ht) rfl (by decide)⟩

/-- Helper: on a page where every lookup yields an empty element list, the
first scan loop of `verify_user_added` misses after querying every
selector once. -/
theorem scanNse_all_empty (page : String → ElemsResult)
    (h : ∀ s, page s = .elems []) :
    ∀ sels, scanNse page sels = (.miss, sels) := by
  intro sels
  induction sels with
  | nil => rfl
  | cons s rest ih => simp [scanNse, h s, ih]

/-- Helper: on a page where every lookup yields an empty element list, the
second scan loop of `verify_user_added` returns false after querying every
selector once. -/
theorem scanBare_all_empty (page : String → ElemsResult)
    (h : ∀ s, page s = .elems []) :
    ∀ sels, scanBare page sels = (false, sels) := by
  intro sels
  induction sels with
  | nil => rfl
  | cons s rest ih => simp [scanBare, h s, ih]

/-- C8 (counterexample).  The claim says the verifier polls for its
evidence for a fixed number of attempts with a fixed delay between
attempts.  `verify_user_added` of `script.py`, on a page with no evidence
at all, queries each of its selectors exactly once (the trace below lists
every selector once, with no repetition and no sleep event) and reports
unverified after that single sweep — there is no polling loop and no
inter-attempt delay in this verifier. -/
theorem verifier_polling_counterexample :
    verifyUserAdded emptyElemsPage "newuser@example.com"
      = (false,
         (userVerificationSelectors "newuser@example.com" ++ successSelectors).map Ev.find)
    ∧ ((userVerificationSelectors "newuser@example.com" ++ successSelectors).map
        Ev.find).Nodup
    ∧ ((userVerificationSelectors "newuser@example.com" ++ successSelectors).map
        Ev.find).countP (fun e => match e with | Ev.sleep _ => true | _ => false) = 0 := by
  refine ⟨rfl, by decide, by decide⟩

/-- C8 (amended).  `script.py` `verify_user_added` checks its
email-evidence selectors and then its success-message selectors in one
single pass, querying each selector once with no delay, before reporting
unverified; only part_000 `verify_user_addition` polls, and it polls only
the member-list locator: up to 3 attempts with a fixed 2-second sleep
after each timed-out attempt, before reporting unverified. -/
theorem verifier_polling_amended :
    (∀ (page : String → ElemsResult) (email : String),
      (∀ s, page s = .elems []) →
      verifyUserAdded page email
        = (false, (userVerificationSelectors email ++ successSelectors).map Ev.find))
    ∧ (∀ ar : Nat → Except Exc Element,
      (∀ i, i < 3 → ∃ m, ar i = .error (.timeout m)) →
      verifyUserAddition ar = (false, [2, 2, 2])) := by
  constructor
  · intro page email h
    simp [verifyUserAdded, scanNse_all_empty page h, scanBare_all_empty page h]
  · intro ar h
    obtain ⟨m0, h0⟩ := h 0 (by norm_num)
    obtain ⟨m1, h1⟩ := h 1 (by norm_num)
    obtain ⟨m2, h2⟩ := h 2 (by norm_num)
    simp [verifyUserAddition, verifyAdditionAux, h0, h1, h2]

/-- C8 (witness).  The single-sweep verifier and the 3-attempt
2-second-delay poll evaluated on concrete no-evidence pages. -/
theorem verifier_polling_amended_witness :
    verifyUserAdded emptyElemsPage "other@example.com"
      = (false,
         (userVerificationSelectors "other@example.com" ++ successSelectors).map Ev.find)
    ∧ verifyUserAddition alwaysTimeoutWait = (false, [2, 2, 2]) :=
  ⟨verifier_polling_amended.1 emptyElemsPage "other@example.com" (fun _ => rfl),
   verifier_polling_amended.2 alwaysTimeoutWait (fun _ _ => ⟨"t", rfl⟩)⟩

/-- C10.  `cleanup` never propagates an exception: with no driver it is a
no-op, and a failing `driver.quit()` is swallowed (logged); the part_000
variant additionally resets `driver` and `wait` to `None`, so a repeated
call performs no further browser action. -/
theorem cleanup_never_raises (s : ScriptState) (p : PartState) (d : Driver) (e : Exc) :
    (cleanupScript s).1 = .ok ()
    ∧ (s.driver = none → cleanupScript s = (.ok (), []))
    ∧ (s.driver = some d → d.quitResult = .error e →
        cleanupScript s = (.ok (), [Ev.quit, Ev.logWarn]))
    ∧ (cleanupPart p).2.1 = .ok ()
    ∧ (cleanupPart p).1.driver = none
    ∧ (cleanupPart p).1.wait = none
    ∧ (cleanupPart (cleanupPart p).1).2.2 = [] := by
  refine ⟨?_, ?_, ?_, rfl, rfl, rfl, rfl⟩
  · rcases hd : s.driver with _ | d2
    · simp [cleanupScript, hd]
    · rcases hq : d2.quitResult with u | e2
      · simp [cleanupScript, hd, hq]
      · simp [cleanupScript, hd, hq]
  · intro h
    simp [cleanupScript, h]
  · intro h hq
    simp [cleanupScript, h, hq]

/-- C10 (witness).  Cleanup evaluated on a state without a driver and on
states whose quit fails. -/
theorem cleanup_never_raises_witness :
    (cleanupScript noDriverState).1 = .ok ()
    ∧ cleanupScript noDriverState = (.ok (), [])
    ∧ cleanupScript failingQuitState = (.ok (), [Ev.quit, Ev.logWarn])
    ∧ (cleanupPart somePartState).2.1 = .ok ()
    ∧ (cleanupPart somePartState).1.driver = none :=
  ⟨(cleanup_never_raises noDriverState somePartState
      { quitResult := .error (.other "boom") } (.other "boom")).1,
   (cleanup_never_raises noDriverState somePartState
      { quitResult := .error (.other "boom") } (.other "boom")).2.1 rfl,
   (cleanup_never_raises failingQuitState somePartState
      { quitResult := .error (.other "boom") } (.other "boom")).2.2.1 rfl rfl,
   (cleanup_never_raises failingQuitState somePartState
      { quitResult := .error (.other "boom") } (.other "boom")).2.2.2.1,
   (cleanup_never_raises failingQuitState somePartState
      { quitResult := .error (.other "boom") } (.other "boom")).2.2.2.2.1⟩
